import Mathlib

/-!
Verification of the ASWORM activity monitor (Go, Windows).

Shallow embedding of the two loop variants of the repository:
the window/mode loop (`src/unnamed/part_001`) and the hourly-aggregation
loop (`src/monitor/main.go`).  Conventions:

* Go `time.Duration` / `time.Time` values are modelled as `ℤ`
  (nanoseconds / an abstract integer time-line); tick counters are `ℕ`.
* Go `float64` arithmetic on the small ratios and percentages involved is
  modelled as exact `ℚ` arithmetic.
* OS queries (`GetCursorPos`, `GetLastInputInfo`), the HTTP round trip and
  the file system are passed in as explicit inputs (`Except`, `Option`,
  an explicit file-system state), so every step of the program is a pure
  function of its state and those inputs.
* Go's numeric/format rendering (`%d`, `%s` on durations, `%.0f`) is
  modelled by `toString` for integers and by abstract rendering functions
  (a `GoFmt` record) for durations, times and floats: the shape of each
  log line is what is verified, not the decimal rendering.
-/

namespace Asworm

/-! ## Tick arithmetic (`getIdleDuration`, identical in both variants) -/

/-- Branch of `getIdleDuration` on the two 32-bit tick values:
`last` is `LASTINPUTINFO.DwTime` (tick at last input), `now32` the low
32 bits of `GetTickCount64`.  Mirrors

    if now32 >= last { idleMillis = now32 - last }
    else             { idleMillis = (0x100000000 - last) + now32 } -/
def idleMillisOfTicks (last now32 : ℕ) : ℕ :=
  if now32 ≥ last then now32 - last else (0x100000000 - last) + now32

/-- Success path of `getIdleDuration`: `dwTime` is the stored 32-bit tick of
the last input event, `tick64` the current `GetTickCount64` value.  The code
masks the current tick to its low 32 bits (`now & 0xFFFFFFFF`, i.e. mod 2^32)
before applying the wrap-around rule. -/
def getIdleDuration (dwTime tick64 : ℕ) : ℕ :=
  idleMillisOfTicks dwTime (tick64 % 0x100000000)

/-! ## Mode classification (`modeFrom`, window variant) -/

/-- The three productivity modes (Go string constants
`HIGH_PRODUCTIVE`, `SIMPLE_PRODUCTIVE`, `IDLE`). -/
inductive Mode where
  | highProductive
  | simpleProductive
  | idle
deriving DecidableEq

/-- Go string value of a `Mode` constant. -/
def Mode.str : Mode → String
  | .highProductive => "HIGH_PRODUCTIVE"
  | .simpleProductive => "SIMPLE_PRODUCTIVE"
  | .idle => "IDLE"

/-- `Config` of the window variant (`src/unnamed/part_001`).  Durations in
nanoseconds as `ℤ` (Go `time.Duration`), ratios as `ℚ` (Go `float64`). -/
structure Config where
  sampleEvery : ℤ
  windowSize : ℤ
  activeIfIdleLessThan : ℤ
  highProductiveRatio : ℚ
  simpleProductiveRatio : ℚ
  continuousIdleThreshold : ℤ
  printStatusEvery : ℤ
  printMouseMoveEvery : ℤ
  logDir : String
  logBaseName : String
  flushEvery : ℤ
deriving DecidableEq

/-- The configuration literal of the window variant's `main`. -/
def srcCfg : Config where
  sampleEvery := 1000000000
  windowSize := 1800000000000
  activeIfIdleLessThan := 30000000000
  highProductiveRatio := 3/5
  simpleProductiveRatio := 3/10
  continuousIdleThreshold := 1800000000000
  printStatusEvery := 30000000000
  printMouseMoveEvery := 0
  logDir := "C:\\ProgramData\\ActivityMonitor"
  logBaseName := "activity"
  flushEvery := 5000000000

/-- A small configuration used to evaluate the definitions on concrete
inputs (the window is 50 time units wide). -/
def smallCfg : Config where
  sampleEvery := 1
  windowSize := 50
  activeIfIdleLessThan := 30
  highProductiveRatio := 3/5
  simpleProductiveRatio := 3/10
  continuousIdleThreshold := 100
  printStatusEvery := 30
  printMouseMoveEvery := 0
  logDir := "d"
  logBaseName := "b"
  flushEvery := 5

/-- `modeFrom(idleNow, activeRatio, cfg)`: first match wins. -/
def modeFrom (idleNow : ℤ) (activeRatio : ℚ) (cfg : Config) : Mode :=
  if idleNow ≥ cfg.continuousIdleThreshold then .idle
  else if activeRatio ≥ cfg.highProductiveRatio then .highProductive
  else if activeRatio ≥ cfg.simpleProductiveRatio then .simpleProductive
  else .idle

/-! ## Sliding window (window variant's sample slice) -/

/-- One activity sample: capture time and whether the machine counted as
active at that tick. -/
structure Sample where
  t : ℤ
  active : Bool
deriving DecidableEq

/-- Eviction scan of the push step: advance an index over the front of the
slice while `samples[i].t.Before(cutoff)`, then keep `samples[i:]`. -/
def dropOldSamples (cutoff : ℤ) (samples : List Sample) : List Sample :=
  samples.dropWhile fun s => decide (s.t < cutoff)

/-- One push of the window variant's tick: append the newest sample, then
drop every sample in front of the first one at or after `now − windowSize`. -/
def pushSample (cfg : Config) (samples : List Sample) (now : ℤ) (isActive : Bool) :
    List Sample :=
  dropOldSamples (now - cfg.windowSize) (samples ++ [⟨now, isActive⟩])

/-- `activeCount` of the tick: the number of active samples in the window. -/
def activeCount (samples : List Sample) : ℕ :=
  samples.countP fun s => s.active

/-- `activeRatio` of the tick: `activeCount/total` (`float64` division in Go,
exact `ℚ` here), and `0` when the window is empty. -/
def activeRatioOf (samples : List Sample) : ℚ :=
  if samples.length > 0 then (activeCount samples : ℚ) / (samples.length : ℚ) else 0

/-- Run a sequence of pushes `(timestamp, isActive)` from the empty window. -/
def runPushes (cfg : Config) (pushes : List (ℤ × Bool)) : List Sample :=
  pushes.foldl (fun acc p => pushSample cfg acc p.1 p.2) []

/-- Timestamps of a push sequence are non-decreasing. -/
def PushesMono (pushes : List (ℤ × Bool)) : Prop :=
  List.Pairwise (fun p q : ℤ × Bool => p.1 ≤ q.1) pushes

instance (pushes : List (ℤ × Bool)) : Decidable (PushesMono pushes) := by
  unfold PushesMono; infer_instance

/-- The sample a push `(timestamp, isActive)` creates. -/
def toSample (p : ℤ × Bool) : Sample := ⟨p.1, p.2⟩

/-- Sample timestamps are non-decreasing along the list. -/
def TSorted (l : List Sample) : Prop :=
  List.Pairwise (fun a b : Sample => a.t ≤ b.t) l

/-! ## Hourly aggregation (`src/monitor/main.go`) -/

/-- `statusFor(activityPct, samplesInHour)`. -/
def statusFor (activityPct : ℚ) (samplesInHour : ℕ) : String :=
  if samplesInHour = 0 ∨ activityPct = 0 then "OFF"
  else if activityPct < 50 then "LOW"
  else if activityPct < 60 then "ACTIVE"
  else "HIGH_PRODUCTION"

/-- The activity percentage the hour-rollover branch of `main` computes before
handing the sealed bucket off: `0.0` unless `samplesInHour > 0`, otherwise
`(1 − idleRatio) × 100` with `idleRatio = idleSeconds/3600` clamped into
`[0, 1]` by the two `if` statements. -/
def sealActivityPct (idleSecondsInHour : ℚ) (samplesInHour : ℕ) : ℚ :=
  if samplesInHour > 0 then
    let idleRatio := idleSecondsInHour / 3600
    let idleRatio := if idleRatio < 0 then 0 else idleRatio
    let idleRatio := if idleRatio > 1 then 1 else idleRatio
    (1 - idleRatio) * 100
  else 0

/-- Formula the specification states for the sealed bucket's activity
percentage, written from the spec's words for comparison with the code's
`sealActivityPct`: `activityPct = (1 − clamp(idleSeconds/3600, 0, 1)) × 100`. -/
def specSealActivityPct (idleSeconds : ℚ) : ℚ :=
  (1 - min 1 (max 0 (idleSeconds / 3600))) * 100

/-- The hourly counters of the monitor variant's loop. -/
structure HourState where
  hourStart : ℤ
  idleSecondsInHour : ℚ
  samplesInHour : ℕ
deriving DecidableEq

/-- Abstract rendering functions standing for Go's textual formatting:
`hourStr` for `Format("2006-01-02T15:00:00Z")`, `pctStr` for `%.0f`,
`durStr` for `%s` on a `time.Duration`, `timeStr` for RFC3339. -/
structure GoFmt where
  hourStr : ℤ → String
  pctStr : ℚ → String
  durStr : ℤ → String
  timeStr : ℤ → String

/-- Rendering functions that return fixed placeholder strings, used to
evaluate the loops on concrete inputs. -/
def trivFmt : GoFmt where
  hourStr := fun _ => "H"
  pctStr := fun _ => "P"
  durStr := fun _ => "D"
  timeStr := fun _ => "T"

/-- Log events the monitor variant's loop can write (one constructor per
`writeLine` call site inside the loop). -/
inductive MonEvent where
  | insertOk (ts hourStr pctStr idleSecStr : String) (samples : ℕ) (status : String)
  | insertErr (ts err : String)
  | cursorErr (ts err : String)
  | mouseMove (ts : String) (x y : ℤ) (prevMoveAt idleStr : String)
deriving DecidableEq

/-- Hour-rollover branch of the monitor variant's tick: when the truncated
current hour is after the bucket's `hourStart`, seal the bucket (activity
percentage and status), hand it to `insertHourly`/rqlite (`uploadRes` is that
upsert's outcome), log one line for either outcome, and reset the counters
for the new hour.  Otherwise leave the bucket alone. -/
def hourRollover (fmt : GoFmt) (st : HourState) (curHour : ℤ) (ts : String)
    (uploadRes : Except String Unit) : HourState × List MonEvent :=
  if st.hourStart < curHour then
    let activityPct := sealActivityPct st.idleSecondsInHour st.samplesInHour
    let status := statusFor activityPct st.samplesInHour
    let ev := match uploadRes with
      | .ok _ => MonEvent.insertOk ts (fmt.hourStr st.hourStart) (fmt.pctStr activityPct)
          (fmt.pctStr st.idleSecondsInHour) st.samplesInHour status
      | .error e => MonEvent.insertErr ts e
    (⟨curHour, 0, 0⟩, [ev])
  else (st, [])

/-- `Config` of the monitor variant (`src/monitor/main.go`). -/
structure MonConfig where
  sampleEvery : ℤ
  activeIfIdleLessThan : ℤ
  printMouseMoveEvery : ℤ
  logDir : String
  logBaseName : String
  flushEvery : ℤ
  rqliteBaseURL : String
  rqliteUser : String
  rqlitePass : String
  hostName : String
  userName : String
deriving DecidableEq

/-- The monitor variant's configuration literal (host/user names abstract). -/
def srcMonCfg : MonConfig where
  sampleEvery := 1000000000
  activeIfIdleLessThan := 30000000000
  printMouseMoveEvery := 0
  logDir := "C:\\ProgramData\\ActivityMonitor"
  logBaseName := "activity"
  flushEvery := 5000000000
  rqliteBaseURL := "http://192.168.1.6:4001"
  rqliteUser := ""
  rqlitePass := ""
  hostName := "HOST"
  userName := "user"

/-- Go `Duration.Seconds()`: the duration in seconds as a float. -/
def durationSeconds (d : ℤ) : ℚ := (d : ℚ) / 1000000000

/-- `t.IsZero() || now.Sub(t) >= d` for an optional last-print time
(the zero `time.Time` is `none`). -/
def sinceAtLeast (now : ℤ) (lastOpt : Option ℤ) (d : ℤ) : Bool :=
  match lastOpt with
  | none => true
  | some l => decide (now - l ≥ d)

/-- Mutable state of the monitor variant's loop (besides the rotating
logger): the hourly bucket and the mouse bookkeeping. -/
structure MonState where
  hour : HourState
  lastMouse : ℤ × ℤ
  lastMousePrint : Option ℤ
  lastMouseMoveAt : Option ℤ
deriving DecidableEq

/-- One ticker tick of the monitor variant's loop: hour rollover first, then
the idle poll (counters updated only when `getIdleDuration` succeeded, the
printed idle value is `"unknown"` otherwise), then mouse handling
(`continue` on a cursor error and on an unmoved cursor). -/
def monTick (cfg : MonConfig) (fmt : GoFmt) (st : MonState) (now curHour : ℤ)
    (ts : String) (idleRes : Except String ℤ) (mouseRes : Except String (ℤ × ℤ))
    (uploadRes : Except String Unit) : MonState × List MonEvent :=
  let hv := hourRollover fmt st.hour curHour ts uploadRes
  let hi : HourState × String := match idleRes with
    | .ok idleNow =>
        (⟨hv.1.hourStart,
          hv.1.idleSecondsInHour +
            (if idleNow ≥ cfg.activeIfIdleLessThan then durationSeconds cfg.sampleEvery else 0),
          hv.1.samplesInHour + 1⟩,
         fmt.durStr idleNow)
    | .error _ => (hv.1, "unknown")
  match mouseRes with
  | .error e => ({ st with hour := hi.1 }, hv.2 ++ [.cursorErr ts e])
  | .ok p =>
    if p = st.lastMouse then ({ st with hour := hi.1 }, hv.2)
    else
      let prevMoveStr := match st.lastMouseMoveAt with
        | none => "first_move"
        | some tPrev => fmt.timeStr tPrev
      let doPrint := decide (cfg.printMouseMoveEvery = 0)
        || sinceAtLeast now st.lastMousePrint cfg.printMouseMoveEvery
      ({ hour := hi.1, lastMouse := p,
         lastMousePrint := if doPrint then some now else st.lastMousePrint,
         lastMouseMoveAt := some now },
       if doPrint then hv.2 ++ [.mouseMove ts p.1 p.2 prevMoveStr hi.2] else hv.2)

/-! ## Window variant's tick (`src/unnamed/part_001`, loop body) -/

/-- Log events the window variant can write (one constructor per `writeLine`
call site of its `main`, the startup cursor-error line excepted). -/
inductive WinEvent where
  | start (ts dir base : String)
  | stop (ts : String)
  | mouseMove (ts : String) (x y dx dy : ℤ)
  | cursorErr (ts err : String)
  | inputInfoErr (ts err : String)
  | modeChange (ts : String) (m : Mode) (idleStr ratioStr : String) (samples : ℕ)
  | statusLine (ts : String) (m : Mode) (idleStr ratioStr : String) (samples : ℕ)
deriving DecidableEq

/-- Mutable state of the window variant's loop (besides the rotating
logger): the mouse baseline, the sample window, the previously emitted mode
(`""` initially, hence `Option`) and the last print times. -/
structure WinState where
  lastMouse : ℤ × ℤ
  samples : List Sample
  lastMode : Option Mode
  lastStatusPrint : Option ℤ
  lastMousePrint : Option ℤ
deriving DecidableEq

/-- One ticker tick of the window variant's loop: mouse-move detection first
(an error there is logged and does not stop the tick), then idle scoring —
on a `GetLastInputInfo` error the error is logged and the tick `continue`s
without touching the window; otherwise the sample is pushed, the ratio and
mode are computed, and a `MODE CHANGE` or periodic `STATUS` line may be
written. -/
def winTick (cfg : Config) (fmt : GoFmt) (st : WinState) (now : ℤ) (ts : String)
    (mouseRes : Except String (ℤ × ℤ)) (idleRes : Except String ℤ) :
    WinState × List WinEvent :=
  -- 1) Mouse move detection + timestamp
  let m1 : WinState × List WinEvent :=
    match mouseRes with
    | .ok p =>
      if p ≠ st.lastMouse then
        if decide (cfg.printMouseMoveEvery = 0)
            || sinceAtLeast now st.lastMousePrint cfg.printMouseMoveEvery then
          ({ st with lastMouse := p, lastMousePrint := some now },
           [.mouseMove ts p.1 p.2 (p.1 - st.lastMouse.1) (p.2 - st.lastMouse.2)])
        else ({ st with lastMouse := p }, [])
      else (st, [])
    | .error e => (st, [.cursorErr ts e])
  -- 2) Idle + activity scoring
  match idleRes with
  | .error e => (m1.1, m1.2 ++ [.inputInfoErr ts e])
  | .ok idleNow =>
    let isActive := decide (idleNow < cfg.activeIfIdleLessThan)
    let samples := pushSample cfg m1.1.samples now isActive
    let ratio := activeRatioOf samples
    let m := modeFrom idleNow ratio cfg
    -- 3) Status logging
    if some m ≠ m1.1.lastMode then
      ({ m1.1 with samples := samples, lastMode := some m, lastStatusPrint := some now },
       m1.2 ++ [.modeChange ts m (fmt.durStr idleNow) (fmt.pctStr (ratio * 100)) samples.length])
    else if sinceAtLeast now m1.1.lastStatusPrint cfg.printStatusEvery then
      ({ m1.1 with samples := samples, lastStatusPrint := some now },
       m1.2 ++ [.statusLine ts m (fmt.durStr idleNow) (fmt.pctStr (ratio * 100)) samples.length])
    else ({ m1.1 with samples := samples }, m1.2)

/-- The window variant's state right after a successful startup. -/
def winStart (mouse : ℤ × ℤ) : WinState where
  lastMouse := mouse
  samples := []
  lastMode := none
  lastStatusPrint := none
  lastMousePrint := none

/-! ## Log line rendering

Each `render`/`…Line` definition below spells out one `fmt.Sprintf` format
string of the source; the `spec…Line` definitions spell out the five exact
line formats section 6 of the specification lists, for comparison. -/

/-- `"[%s] START (logs in %s as %s-YYYY-MM-DD.log)"` (window variant). -/
def specStartLine (ts dir base : String) : String :=
  "[" ++ ts ++ "] START (logs in " ++ dir ++ " as " ++ base ++ "-YYYY-MM-DD.log)"

/-- `"MOUSE MOVE: (<x>,<y>) delta=(<dx>,<dy>)"` with the timestamp prefix. -/
def specMouseMoveLine (ts x y dx dy : String) : String :=
  "[" ++ ts ++ "] MOUSE MOVE: (" ++ x ++ "," ++ y ++ ") delta=(" ++ dx ++ "," ++ dy ++ ")"

/-- `"MODE CHANGE: <mode>  idleNow=<duration>  activeRatio=<int>%  samples=<n>"`. -/
def specModeChangeLine (ts mode dur ratio n : String) : String :=
  "[" ++ ts ++ "] MODE CHANGE: " ++ mode ++ "  idleNow=" ++ dur ++ "  activeRatio=" ++
    ratio ++ "%  samples=" ++ n

/-- `"STATUS: mode=<mode>  idleNow=<duration>  activeRatio=<int>%  samples=<n>"`. -/
def specStatusLine (ts mode dur ratio n : String) : String :=
  "[" ++ ts ++ "] STATUS: mode=" ++ mode ++ "  idleNow=" ++ dur ++ "  activeRatio=" ++
    ratio ++ "%  samples=" ++ n

/-- `"[%s] STOP"`. -/
def specStopLine (ts : String) : String := "[" ++ ts ++ "] STOP"

/-- A line matches one of the five formats of the specification's
external-interface section. -/
def MatchesSpecFormats (line : String) : Prop :=
  (∃ ts dir base, line = specStartLine ts dir base) ∨
  (∃ ts x y dx dy, line = specMouseMoveLine ts x y dx dy) ∨
  (∃ ts mode dur ratio n, line = specModeChangeLine ts mode dur ratio n) ∨
  (∃ ts mode dur ratio n, line = specStatusLine ts mode dur ratio n) ∨
  (∃ ts, line = specStopLine ts)

/-- `"[%s] GetCursorPos error: %v"` (written by both variants' loops). -/
def cursorErrLine (ts err : String) : String :=
  "[" ++ ts ++ "] GetCursorPos error: " ++ err

/-- `"[%s] GetLastInputInfo error: %v"` (window variant). -/
def inputInfoErrLine (ts err : String) : String :=
  "[" ++ ts ++ "] GetLastInputInfo error: " ++ err

/-- The text a window-variant log event is written as (one case per
`fmt.Sprintf` of the source's `main`). -/
def renderWin : WinEvent → String
  | .start ts dir base =>
      "[" ++ ts ++ "] START (logs in " ++ dir ++ " as " ++ base ++ "-YYYY-MM-DD.log)"
  | .stop ts => "[" ++ ts ++ "] STOP"
  | .mouseMove ts x y dx dy =>
      "[" ++ ts ++ "] MOUSE MOVE: (" ++ toString x ++ "," ++ toString y ++ ") delta=(" ++
        toString dx ++ "," ++ toString dy ++ ")"
  | .cursorErr ts e => "[" ++ ts ++ "] GetCursorPos error: " ++ e
  | .inputInfoErr ts e => "[" ++ ts ++ "] GetLastInputInfo error: " ++ e
  | .modeChange ts m idleStr ratioStr n =>
      "[" ++ ts ++ "] MODE CHANGE: " ++ m.str ++ "  idleNow=" ++ idleStr ++
        "  activeRatio=" ++ ratioStr ++ "%  samples=" ++ toString n
  | .statusLine ts m idleStr ratioStr n =>
      "[" ++ ts ++ "] STATUS: mode=" ++ m.str ++ "  idleNow=" ++ idleStr ++
        "  activeRatio=" ++ ratioStr ++ "%  samples=" ++ toString n

/-- A line is one the window variant's loop can write: one of the five
specified formats, or one of the two in-loop error-line formats. -/
def MatchesWinFormats (line : String) : Prop :=
  MatchesSpecFormats line ∨
  (∃ ts e, line = cursorErrLine ts e) ∨
  (∃ ts e, line = inputInfoErrLine ts e)

/-- `"[%s] START host=%s user=%s rqlite=%s"`: the START line the monitor
variant writes. -/
def monStartLine (ts host user rqlite : String) : String :=
  "[" ++ ts ++ "] START host=" ++ host ++ " user=" ++ user ++ " rqlite=" ++ rqlite

/-- The concrete monitor START line used to compare the two variants' log
formats. -/
def monStartLineCex : String :=
  monStartLine "2026-02-01T09:00:00+01:00" "HOST" "user" "http://192.168.1.6:4001"

/-! ## Rotating logger (`RotatingLogger`, identical in both variants) -/

/-- Writer state of `RotatingLogger`: the configured directory and base name,
the date of the currently open file, and the open file (the source's `file`
and `logger` fields are set and cleared together; `none` models both nil). -/
structure LoggerState where
  dir : String
  base : String
  curDate : String
  file : Option String
deriving DecidableEq

/-- File-system state the logger acts on: the OS-level open handles and each
path's content (a missing file reads as no lines). -/
structure FileSys where
  openFiles : List String
  contents : String → List String

/-- `filenameFor`: `filepath.Join(dir, fmt.Sprintf("%s-%s.log", base, date))`. -/
def filenameFor (st : LoggerState) (date : String) : String :=
  st.dir ++ "/" ++ st.base ++ "-" ++ date ++ ".log"

/-- `rotateIfNeeded(now)` with `date = now.Format("2006-01-02")`: nothing to
do when the date matches and a file is open; otherwise sync and close the old
handle, then open (create if missing) the new date's file with
`O_CREATE|O_APPEND|O_WRONLY` — never truncating — which may fail (`openOk`).
On failure the writer is left closed and `curDate` unchanged. -/
def rotateIfNeeded (st : LoggerState) (fs : FileSys) (date : String) (openOk : Bool) :
    LoggerState × FileSys :=
  if date = st.curDate ∧ st.file.isSome then (st, fs)
  else
    let fs1 : FileSys := match st.file with
      | some f => { fs with openFiles := fs.openFiles.erase f }
      | none => fs
    let st1 : LoggerState := { st with file := none }
    if openOk then
      let path := filenameFor st date
      ({ st1 with curDate := date, file := some path },
       { fs1 with openFiles := path :: fs1.openFiles })
    else (st1, fs1)

/-- `Println(line)`: rotate if needed for the current date, then append the
line to the open file (a closed writer drops the line). -/
def loggerPrintln (st : LoggerState) (fs : FileSys) (date line : String)
    (openOk : Bool) : LoggerState × FileSys :=
  let r := rotateIfNeeded st fs date openOk
  match r.1.file with
  | some f =>
      (r.1, { r.2 with contents := fun p => if p = f then r.2.contents p ++ [line] else r.2.contents p })
  | none => r

/-- `Close()`: sync and close the open handle, if any. -/
def loggerClose (st : LoggerState) (fs : FileSys) : LoggerState × FileSys :=
  match st.file with
  | some f => ({ st with file := none }, { fs with openFiles := fs.openFiles.erase f })
  | none => (st, fs)

/-- The operations invoked on the rotating logger after construction:
`Println` (with the wall-clock date at the call and whether a needed re-open
succeeds), `Sync` (flush, no state change in this model) and `Close`. -/
inductive LogOp where
  | println (date line : String) (openOk : Bool)
  | sync
  | close
deriving DecidableEq

/-- One logger operation. -/
def logStep (s : LoggerState × FileSys) : LogOp → LoggerState × FileSys
  | .println date line openOk => loggerPrintln s.1 s.2 date line openOk
  | .sync => s
  | .close => loggerClose s.1 s.2

/-- Run a sequence of logger operations. -/
def runLog (s : LoggerState × FileSys) (ops : List LogOp) : LoggerState × FileSys :=
  ops.foldl logStep s

/-- `NewRotatingLogger(dir, base)`: a fresh writer (no date, no handle) that
immediately rotates to `date`. -/
def newRotatingLogger (dir base : String) (fs : FileSys) (date : String)
    (openOk : Bool) : LoggerState × FileSys :=
  rotateIfNeeded ⟨dir, base, "", none⟩ fs date openOk

/-- The writer's open handle is exactly what the OS has open: the invariant
tying `LoggerState` to `FileSys`. -/
def HandleInv (s : LoggerState × FileSys) : Prop :=
  s.2.openFiles = s.1.file.toList

/-- An empty file system. -/
def emptyFS : FileSys where
  openFiles := []
  contents := fun _ => []

/-! ## Remote upsert (`rqliteExec`) -/

/-- One entry of the `results` array of an rqlite execute response. -/
structure RqliteResult where
  lastInsertId : ℤ
  rowsAffected : ℤ
  error : String
deriving DecidableEq

/-- Parsed rqlite execute response: per-statement results and a top-level
error field. -/
structure RqliteExecuteResp where
  results : List RqliteResult
  error : String
deriving DecidableEq

/-- Outcome of the HTTP round trip when the request itself succeeded:
the status code and the body as parsed by `json.Unmarshal`
(`none` when the body is not parseable into the response schema). -/
structure HttpResponse where
  statusCode : ℕ
  body : Option RqliteExecuteResp
deriving DecidableEq

/-- `rqliteExec`: empty base URL is rejected up front; a transport failure is
returned as-is; a status outside `[200, 300)` fails; an unparseable body
fails; a non-empty top-level `error` fails; the first non-empty per-statement
`error` fails; otherwise success.  (Marshalling the statement list — an array
of strings — cannot fail; a failure to build the request is folded into the
transport failure input.) -/
def rqliteExec (baseURL : String) (doRes : Except String HttpResponse) :
    Except String Unit :=
  if baseURL = "" then .error "RqliteBaseURL is empty"
  else
    match doRes with
    | .error e => .error e
    | .ok resp =>
      if resp.statusCode < 200 ∨ 300 ≤ resp.statusCode then
        .error "rqlite execute failed: HTTP"
      else
        match resp.body with
        | none => .error "rqlite execute: cannot parse JSON"
        | some parsed =>
          if parsed.error ≠ "" then .error parsed.error
          else
            match parsed.results.find? (fun r => decide (r.error ≠ "")) with
            | some r => .error r.error
            | none => .ok ()

/-! ## Theorems -/

/-- Claim C4: for 32-bit tick values the wrap-around branch computes exactly
the elapsed milliseconds modulo 2^32 — `(2^32 − last) + now` when `now < last`,
`now − last` otherwise — and in particular `last = 0xFFFFFFF0`,
`now = 0x00000010` yield exactly `0x20` milliseconds. -/
theorem idleMillisOfTicks_wraparound (last now32 : ℕ)
    (hl : last < 0x100000000) (hn : now32 < 0x100000000) :
    (idleMillisOfTicks last now32 : ℤ) =
      ((now32 : ℤ) - (last : ℤ) + 0x100000000) % 0x100000000
    ∧ idleMillisOfTicks 0xFFFFFFF0 0x00000010 = 0x20 := by
  constructor
  · unfold idleMillisOfTicks
    split <;> omega
  · decide

/-- Claim C4, evaluated at `last = 0`, `now32 = 0`. -/
theorem idleMillisOfTicks_wraparound_witness :
    (idleMillisOfTicks 0 0 : ℤ) =
      ((0 : ℕ) - ((0 : ℕ) : ℤ) + 0x100000000) % 0x100000000
    ∧ idleMillisOfTicks 0xFFFFFFF0 0x00000010 = 0x20 :=
  idleMillisOfTicks_wraparound 0 0 (by decide) (by decide)

/-- Claim C10: on the success path `getIdleDuration` returns
`((now mod 2^32) − last) mod 2^32` milliseconds, a value that is always
below 2^32 (so the reported idle duration cannot exceed about 49.7 days and
wraps back toward zero beyond that). -/
theorem getIdleDuration_bounded (dwTime tick64 : ℕ) (h : dwTime < 2 ^ 32) :
    (getIdleDuration dwTime tick64 : ℤ) =
      ((tick64 : ℤ) % 2 ^ 32 - (dwTime : ℤ)) % 2 ^ 32
    ∧ getIdleDuration dwTime tick64 < 2 ^ 32 := by
  have h32 : (2 : ℤ) ^ 32 = 0x100000000 := by norm_num
  have h32n : (2 : ℕ) ^ 32 = 0x100000000 := by norm_num
  unfold getIdleDuration idleMillisOfTicks
  rw [h32, h32n]
  have hm : tick64 % 0x100000000 < 0x100000000 := Nat.mod_lt _ (by norm_num)
  constructor
  · split <;> omega
  · split <;> omega

/-- Claim C10, evaluated at `dwTime = 0xFFFFFFF0`, `tick64 = 0x500000010`. -/
theorem getIdleDuration_bounded_witness :
    (getIdleDuration 0xFFFFFFF0 0x500000010 : ℤ) =
      (((0x500000010 : ℕ) : ℤ) % 2 ^ 32 - ((0xFFFFFFF0 : ℕ) : ℤ)) % 2 ^ 32
    ∧ getIdleDuration 0xFFFFFFF0 0x500000010 < 2 ^ 32 :=
  getIdleDuration_bounded 0xFFFFFFF0 0x500000010 (by norm_num)

/-- Claim C2: `modeFrom` is a pure function of `(idleNow, activeRatio,
thresholds)` — equal inputs give equal modes — evaluated in fixed priority
order with first match winning and inclusive boundaries; with
`highProductiveRatio = 0.60`, a ratio of exactly `0.60` below the continuous
idle threshold yields `HighProductive`. -/
theorem modeFrom_spec (cfg : Config) (idleNow idleNow' : ℤ) (r r' : ℚ) :
    (idleNow = idleNow' → r = r' → modeFrom idleNow r cfg = modeFrom idleNow' r' cfg)
    ∧ (idleNow ≥ cfg.continuousIdleThreshold → modeFrom idleNow r cfg = .idle)
    ∧ (idleNow < cfg.continuousIdleThreshold → r ≥ cfg.highProductiveRatio →
        modeFrom idleNow r cfg = .highProductive)
    ∧ (idleNow < cfg.continuousIdleThreshold → r < cfg.highProductiveRatio →
        r ≥ cfg.simpleProductiveRatio → modeFrom idleNow r cfg = .simpleProductive)
    ∧ (idleNow < cfg.continuousIdleThreshold → r < cfg.highProductiveRatio →
        r < cfg.simpleProductiveRatio → modeFrom idleNow r cfg = .idle)
    ∧ (idleNow < cfg.continuousIdleThreshold → cfg.highProductiveRatio = 3/5 →
        r = 3/5 → modeFrom idleNow r cfg = .highProductive) := by
  unfold modeFrom
  refine ⟨fun hi hr => by rw [hi, hr], ?_, ?_, ?_, ?_, ?_⟩
  · intro h; rw [if_pos h]
  · intro h hr; rw [if_neg (not_le.mpr h), if_pos hr]
  · intro h hr hs; rw [if_neg (not_le.mpr h), if_neg (not_le.mpr hr), if_pos hs]
  · intro h hr hs; rw [if_neg (not_le.mpr h), if_neg (not_le.mpr hr), if_neg (not_le.mpr hs)]
  · intro h hh hr; rw [if_neg (not_le.mpr h), if_pos (by rw [hh, hr])]

/-- Claim C2, evaluated at the source configuration with `idleNow = 0` and
`activeRatio` exactly `3/5`. -/
theorem modeFrom_spec_witness :
    modeFrom 0 (3/5) srcCfg = Mode.highProductive :=
  (modeFrom_spec srcCfg 0 0 (3/5) (3/5)).2.2.2.2.2 (by decide) (by norm_num [srcCfg]) rfl

/-- Claim C3 counterexample: at the bucket state
`(idleSecondsAccumulated, sampleCount) = (0, 0)` the code seals
`activityPct = 0`, while the claimed formula
`(1 − clamp(0/3600, 0, 1)) × 100` gives `100`. -/
theorem sealActivityPct_zero_samples_cex :
    sealActivityPct 0 0 = 0 ∧ specSealActivityPct 0 = 100 ∧
    sealActivityPct 0 0 < specSealActivityPct 0 := by
  norm_num [sealActivityPct, specSealActivityPct]

/-- Claim C3 (amended): sealing computes
`activityPct = (1 − clamp(idleSeconds/3600, 0, 1)) × 100` whenever
`sampleCount > 0`, and `activityPct = 0` when `sampleCount = 0`; the status
thresholds are exactly as claimed ("OFF" / "LOW" below 50 / "ACTIVE" below
60 / "HIGH_PRODUCTION"), and `idleSeconds = 2000` with `sampleCount = 3600`
seals to `activityPct = 400/9 ≈ 44.4` with status "LOW". -/
theorem seal_status_correct (idle pct : ℚ) (n : ℕ) :
    (0 < n → sealActivityPct idle n = specSealActivityPct idle)
    ∧ (n = 0 → sealActivityPct idle n = 0)
    ∧ (statusFor pct n = "OFF" ↔ (n = 0 ∨ pct = 0))
    ∧ (statusFor pct n = "LOW" ↔ (¬(n = 0 ∨ pct = 0) ∧ pct < 50))
    ∧ (statusFor pct n = "ACTIVE" ↔ (¬(n = 0 ∨ pct = 0) ∧ 50 ≤ pct ∧ pct < 60))
    ∧ (statusFor pct n = "HIGH_PRODUCTION" ↔ (¬(n = 0 ∨ pct = 0) ∧ 60 ≤ pct))
    ∧ sealActivityPct 2000 3600 = 400/9
    ∧ (444/10 : ℚ) < 400/9 ∧ (400/9 : ℚ) < 445/10
    ∧ statusFor (sealActivityPct 2000 3600) 3600 = "LOW" := by
  refine ⟨?_, ?_, ?_, ?_, ?_, ?_, ?_, ?_, ?_, ?_⟩
  · intro hn
    unfold sealActivityPct specSealActivityPct
    rw [if_pos hn]
    simp only [min_def, max_def]
    split_ifs <;> first | rfl | linarith
  · intro hn; simp [sealActivityPct, hn]
  · unfold statusFor; split_ifs with h1 h2 h3 <;> simp_all
  · unfold statusFor; split_ifs with h1 h2 h3 <;> simp_all
  · unfold statusFor; split_ifs with h1 h2 h3 <;> simp_all
  · unfold statusFor; split_ifs with h1 h2 h3 <;> simp_all
    linarith
  · norm_num [sealActivityPct]
  · norm_num
  · norm_num
  · norm_num [sealActivityPct, statusFor]

/-- Claim C5: once the hour boundary is crossed, the bucket handed off to
the remote store is reset to `(curHour, 0, 0)` on the success path and on
the failure path of the upload alike — the post-hand-off state does not
depend on the upload outcome, so a failed bucket is never kept for retry. -/
theorem hourRollover_reset (fmt : GoFmt) (st : HourState) (curHour : ℤ)
    (ts : String) (h : st.hourStart < curHour) :
    (∀ r : Except String Unit, (hourRollover fmt st curHour ts r).1 = ⟨curHour, 0, 0⟩)
    ∧ ∀ r r' : Except String Unit,
        (hourRollover fmt st curHour ts r).1 = (hourRollover fmt st curHour ts r').1 := by
  constructor
  · intro r; simp [hourRollover, h]
  · intro r r'; simp [hourRollover, h]

/-- Claim C5, evaluated at the bucket `(0, 2000, 3600)` sealed at hour `1`
with a failed upload. -/
theorem hourRollover_reset_witness :
    (hourRollover trivFmt ⟨0, 2000, 3600⟩ 1 "T" (Except.error "boom")).1 =
      (⟨1, 0, 0⟩ : HourState) :=
  (hourRollover_reset trivFmt ⟨0, 2000, 3600⟩ 1 "T" (by decide)).1 (Except.error "boom")

/-- Claim C6 counterexample: with an empty configured base URL, `rqliteExec`
returns an error although the HTTP exchange input is a success with status
200, a parseable body, an empty top-level error and no per-statement errors
— an error case the claim's list does not contain. -/
theorem rqliteExec_emptyURL_cex :
    rqliteExec "" (Except.ok ⟨200, some ⟨[], ""⟩⟩) =
      Except.error "RqliteBaseURL is empty" := rfl

/-- Claim C6 (amended): `rqliteExec` succeeds exactly when the configured
base URL is non-empty, the HTTP request itself succeeds, the status code is
in `[200, 300)`, the body parses, the top-level error field is empty and
every per-statement error field is empty; it returns an error exactly when
one of those conditions fails. -/
theorem rqliteExec_ok_iff (baseURL : String) (doRes : Except String HttpResponse) :
    rqliteExec baseURL doRes = Except.ok () ↔
      baseURL ≠ "" ∧ ∃ resp, doRes = Except.ok resp ∧
        200 ≤ resp.statusCode ∧ resp.statusCode < 300 ∧
        ∃ parsed, resp.body = some parsed ∧ parsed.error = "" ∧
          ∀ r ∈ parsed.results, r.error = "" := by
  unfold rqliteExec
  rcases doRes with e | resp
  · by_cases hb : baseURL = "" <;> simp [hb]
  · by_cases hb : baseURL = ""
    · simp [hb]
    · rw [if_neg hb]
      dsimp only
      simp only [ne_eq, hb, not_false_eq_true, true_and]
      by_cases hs : resp.statusCode < 200 ∨ 300 ≤ resp.statusCode
      · rw [if_pos hs]
        constructor
        · intro h; cases h
        · rintro ⟨resp', hr, h1, h2, -⟩
          cases hr
          omega
      · rw [if_neg hs]
        push_neg at hs
        rcases hbody : resp.body with _ | parsed
        · constructor
          · intro h; cases h
          · rintro ⟨resp', hr, -, -, parsed, hp, -⟩
            cases hr
            rw [hbody] at hp
            cases hp
        · dsimp only
          by_cases he : parsed.error ≠ ""
          · rw [if_pos he]
            constructor
            · intro h; cases h
            · rintro ⟨resp', hr, -, -, parsed', hp, he', -⟩
              cases hr
              rw [hbody] at hp
              cases hp
              exact (he he').elim
          · rw [if_neg he]
            push_neg at he
            rcases hfind : parsed.results.find? (fun r => decide (¬ r.error = "")) with _ | bad
            · rw [hfind]
              constructor
              · intro _
                refine ⟨resp, rfl, hs.1, hs.2, parsed, hbody, he, ?_⟩
                intro r hr
                by_contra hne
                have := List.find?_eq_none.mp hfind r hr
                simp [hne] at this
              · intro _; rfl
            · rw [hfind]
              constructor
              · intro h; cases h
              · rintro ⟨resp', hr, -, -, parsed', hp, -, hall⟩
                cases hr
                rw [hbody] at hp
                cases hp
                have hmem := List.mem_of_find?_eq_some hfind
                have hbad := List.find?_some hfind
                simp at hbad
                exact absurd (hall bad hmem) hbad

/-- Claim C6, evaluated at a successful round trip against a non-empty base
URL. -/
theorem rqliteExec_ok_iff_witness :
    rqliteExec "http://192.168.1.6:4001" (Except.ok ⟨200, some ⟨[⟨0, 1, ""⟩], ""⟩⟩) =
      Except.ok () :=
  (rqliteExec_ok_iff "http://192.168.1.6:4001"
      (Except.ok ⟨200, some ⟨[⟨0, 1, ""⟩], ""⟩⟩)).mpr
    ⟨by decide, ⟨200, some ⟨[⟨0, 1, ""⟩], ""⟩⟩, rfl, by norm_num, by norm_num,
      ⟨[⟨0, 1, ""⟩], ""⟩, rfl, rfl, by intro r hr; simp at hr; rw [hr]⟩

/-! ### Sliding window (claim C1) -/

theorem runPushes_append (cfg : Config) (q : List (ℤ × Bool)) (p : ℤ × Bool) :
    runPushes cfg (q ++ [p]) = pushSample cfg (runPushes cfg q) p.1 p.2 := by
  simp [runPushes, List.foldl_append]

/-- On a list with non-decreasing timestamps the front-eviction scan removes
exactly the samples strictly before the cutoff. -/
theorem dropWhile_eq_filter_of_tsorted (c : ℤ) (l : List Sample) (hl : TSorted l) :
    l.dropWhile (fun s => decide (s.t < c)) = l.filter (fun s => decide (c ≤ s.t)) := by
  induction hl with
  | nil => rfl
  | @cons x xs hx _ ih =>
    by_cases hc : x.t < c
    · rw [List.dropWhile_cons_of_pos (by simpa using hc),
        List.filter_cons_of_neg (by simpa using not_le.mpr hc)]
      exact ih
    · rw [List.dropWhile_cons_of_neg (by simpa using hc),
        List.filter_cons_of_pos (by simpa using not_lt.mp hc)]
      rw [List.filter_eq_self.mpr]
      intro s hs
      simpa using le_trans (not_lt.mp hc) (hx s hs)

theorem runPushes_eq_filter (cfg : Config) (hW : 0 ≤ cfg.windowSize)
    (ps : List (ℤ × Bool)) :
    ∀ (now : ℤ) (a : Bool), PushesMono (ps ++ [(now, a)]) →
      runPushes cfg (ps ++ [(now, a)]) =
        ((ps ++ [(now, a)]).map toSample).filter
          (fun s => decide (now - cfg.windowSize ≤ s.t)) := by
  induction ps using List.reverseRecOn with
  | nil =>
    intro now a _
    have h1 : ¬ ((now : ℤ) < now - cfg.windowSize) := by omega
    have h2 : (now : ℤ) - cfg.windowSize ≤ now := by omega
    show pushSample cfg [] now a = _
    unfold pushSample dropOldSamples
    rw [List.nil_append, List.dropWhile_cons_of_neg (by simpa using h1)]
    rw [List.nil_append, List.map_cons, List.map_nil,
      List.filter_cons_of_pos (by simpa [toSample] using h2)]
    rfl
  | append_singleton l x ih =>
    rcases x with ⟨xt, xa⟩
    intro now a hmono
    unfold PushesMono at hmono
    have hmono' : List.Pairwise (fun p q : ℤ × Bool => p.1 ≤ q.1) (l ++ [(xt, xa)]) :=
      hmono.sublist (List.sublist_append_left _ _)
    have hbound : ∀ q ∈ l ++ [(xt, xa)], q.1 ≤ now := by
      intro q hq
      exact (List.pairwise_append.mp hmono).2.2 q hq (now, a) (by simp)
    have key := ih xt xa hmono'
    rw [runPushes_append, key]
    dsimp only
    unfold pushSample dropOldSamples
    have hLsort : TSorted ((l ++ [(xt, xa)]).map toSample) := by
      unfold TSorted
      rw [List.pairwise_map]
      exact hmono'
    have hF1sort : TSorted (((l ++ [(xt, xa)]).map toSample).filter
        (fun s => decide (xt - cfg.windowSize ≤ s.t))) := hLsort.filter _
    have hle : ∀ s ∈ ((l ++ [(xt, xa)]).map toSample).filter
        (fun s => decide (xt - cfg.windowSize ≤ s.t)), s.t ≤ now := by
      intro s hs
      have hsL := List.mem_of_mem_filter hs
      rcases List.mem_map.mp hsL with ⟨q, hq, rfl⟩
      exact hbound q hq
    have hsort2 : TSorted ((((l ++ [(xt, xa)]).map toSample).filter
        (fun s => decide (xt - cfg.windowSize ≤ s.t))) ++ [⟨now, a⟩]) := by
      unfold TSorted
      rw [List.pairwise_append]
      refine ⟨hF1sort, List.pairwise_singleton _ _, ?_⟩
      intro s hs b hb
      rw [List.mem_singleton] at hb
      subst hb
      exact hle s hs
    rw [dropWhile_eq_filter_of_tsorted _ _ hsort2]
    have hxt_now : xt ≤ now := by simpa using hbound (xt, xa) (by simp)
    conv_rhs => rw [List.map_append]
    rw [List.filter_append, List.filter_append]
    congr 1
    · rw [List.filter_filter]
      apply List.filter_congr
      intro s hsL
      rcases List.mem_map.mp hsL with ⟨q, hq, rfl⟩
      by_cases h2 : now - cfg.windowSize ≤ (toSample q).t
      · have h1 : xt - cfg.windowSize ≤ (toSample q).t := by
          simp only [toSample] at h2 ⊢
          omega
        simp [h1, h2]
      · simp [h2]

/-- Claim C1 counterexample: with out-of-order push timestamps — window size
50, pushes at times 100, 5, 100 — the sample pushed at time 5, strictly
older than the final cutoff 100 − 50, is retained by the front-eviction
scan, so after the final push the window does not contain exactly the pushed
samples with timestamp ≥ now − windowSize. -/
theorem window_stale_sample_cex :
    Sample.mk 5 true ∈ runPushes smallCfg [(100, true), (5, true), (100, true)]
    ∧ (5 : ℤ) < 100 - smallCfg.windowSize := by decide

/-- Claim C1 (amended): for a non-negative window size and non-decreasing
push timestamps, after `Push` at time `now` the window contains exactly the
pushed samples with timestamp ≥ `now − windowSize` (all strictly older ones
are evicted), and the tick's `activeRatio` equals `activeCount/totalCount`
over those retained samples, with `ActiveRatio` of an empty window being 0. -/
theorem window_exact_and_ratio (cfg : Config) (ps : List (ℤ × Bool)) (now : ℤ)
    (a : Bool) (hW : 0 ≤ cfg.windowSize) (hmono : PushesMono (ps ++ [(now, a)])) :
    runPushes cfg (ps ++ [(now, a)]) =
      ((ps ++ [(now, a)]).map toSample).filter
        (fun s => decide (now - cfg.windowSize ≤ s.t))
    ∧ activeRatioOf (runPushes cfg (ps ++ [(now, a)])) =
        (activeCount (runPushes cfg (ps ++ [(now, a)])) : ℚ) /
          ((runPushes cfg (ps ++ [(now, a)])).length : ℚ)
    ∧ activeRatioOf [] = 0 := by
  have heq := runPushes_eq_filter cfg hW ps now a hmono
  refine ⟨heq, ?_, rfl⟩
  have hmem : toSample (now, a) ∈ ((ps ++ [(now, a)]).map toSample).filter
      (fun s => decide (now - cfg.windowSize ≤ s.t)) := by
    refine List.mem_filter.mpr ⟨List.mem_map_of_mem _ (by simp), ?_⟩
    simp only [toSample, decide_eq_true_eq]
    omega
  have hne : (runPushes cfg (ps ++ [(now, a)])).length > 0 := by
    rw [heq]
    exact List.length_pos.mpr (List.ne_nil_of_mem hmem)
  unfold activeRatioOf
  rw [if_pos hne]

/-- Claim C1, evaluated at the in-order push sequence `(0, true), (10, false)`
with window size 50. -/
theorem window_exact_and_ratio_witness :
    activeRatioOf (runPushes smallCfg ([(0, true)] ++ [(10, false)])) =
      (activeCount (runPushes smallCfg ([(0, true)] ++ [(10, false)])) : ℚ) /
        ((runPushes smallCfg ([(0, true)] ++ [(10, false)])).length : ℚ) :=
  (window_exact_and_ratio smallCfg [(0, true)] 10 false (by decide) (by decide)).2.1

/-! ### Rotating logger (claim C7) -/

theorem rotateIfNeeded_handleInv (st : LoggerState) (fs : FileSys) (date : String)
    (openOk : Bool) (h : HandleInv (st, fs)) :
    HandleInv (rotateIfNeeded st fs date openOk) := by
  unfold HandleInv at h ⊢
  unfold rotateIfNeeded
  split_ifs with h1 h2
  · exact h
  · rcases hf : st.file with _ | f <;> simp_all
  · rcases hf : st.file with _ | f <;> simp_all

theorem rotateIfNeeded_contents (st : LoggerState) (fs : FileSys) (date : String)
    (openOk : Bool) :
    (rotateIfNeeded st fs date openOk).2.contents = fs.contents := by
  unfold rotateIfNeeded
  split_ifs <;> rcases st.file with _ | f <;> rfl

theorem logStep_handleInv (s : LoggerState × FileSys) (op : LogOp)
    (h : HandleInv s) : HandleInv (logStep s op) := by
  rcases op with ⟨date, line, openOk⟩ | _ | _
  · unfold logStep loggerPrintln
    have hr := rotateIfNeeded_handleInv s.1 s.2 date openOk h
    rcases hf : (rotateIfNeeded s.1 s.2 date openOk).1.file with _ | f
    · simpa [hf] using hr
    · unfold HandleInv at hr ⊢
      simpa [hf] using hr
  · exact h
  · unfold HandleInv at h ⊢
    unfold logStep loggerClose
    rcases hf : s.1.file with _ | f <;> simp_all

theorem logStep_contents_mono (s : LoggerState × FileSys) (op : LogOp) (p : String) :
    s.2.contents p <+: (logStep s op).2.contents p := by
  rcases op with ⟨date, line, openOk⟩ | _ | _
  · unfold logStep loggerPrintln
    have hc := rotateIfNeeded_contents s.1 s.2 date openOk
    rcases hf : (rotateIfNeeded s.1 s.2 date openOk).1.file with _ | f
    · simp [hf, hc]
    · simp only [hf, hc]
      by_cases hp : p = f
      · simp [hp]
      · simp [hp]
  · exact List.prefix_refl _
  · unfold logStep loggerClose
    rcases hf : s.1.file with _ | f <;> simp

theorem runLog_handleInv (ops : List LogOp) :
    ∀ s : LoggerState × FileSys, HandleInv s → HandleInv (runLog s ops) := by
  induction ops with
  | nil => intro s h; exact h
  | cons op ops ih =>
    intro s h
    exact ih (logStep s op) (logStep_handleInv s op h)

theorem runLog_contents_mono (ops : List LogOp) :
    ∀ (s : LoggerState × FileSys) (p : String),
      s.2.contents p <+: (runLog s ops).2.contents p := by
  induction ops with
  | nil => intro s p; exact List.prefix_refl _
  | cons op ops ih =>
    intro s p
    exact (logStep_contents_mono s op p).trans (ih (logStep s op) p)

theorem println_openOk_isSome (s : LoggerState × FileSys) (date line : String) :
    ((logStep s (.println date line true)).1).file.isSome = true := by
  unfold logStep loggerPrintln
  rcases hf : (rotateIfNeeded s.1 s.2 date true).1.file with _ | f
  · exfalso
    revert hf
    unfold rotateIfNeeded
    split_ifs with h1 h2
    · intro hf
      rw [hf] at h1
      simp at h1
    · intro hf
      simp at hf
    · exact fun _ => h2 rfl
  · simp [hf]

/-- Claim C7: across every sequence of `Println`/`Sync`/`Close` operations
the writer's open handle is exactly the one the OS has open — so at most one
file handle is open at a time; no operation ever truncates or rewrites
existing file content (appends only, so a restart on the same date appends
to the existing file, as does the constructor's initial rotation); and a
`Println` whose (possibly needed) re-open succeeds always leaves the writer
with a valid handle. -/
theorem logger_handle_invariants (s : LoggerState × FileSys) (ops : List LogOp)
    (hinv : HandleInv s) :
    HandleInv (runLog s ops)
    ∧ (runLog s ops).2.openFiles.length ≤ 1
    ∧ (∀ p, s.2.contents p <+: (runLog s ops).2.contents p)
    ∧ (∀ date line, ((logStep (runLog s ops) (.println date line true)).1).file.isSome = true)
    ∧ (∀ dir base fs0 date openOk p,
        (newRotatingLogger dir base fs0 date openOk).2.contents p = fs0.contents p) := by
  have hI := runLog_handleInv ops s hinv
  refine ⟨hI, ?_, fun p => runLog_contents_mono ops s p,
    fun date line => println_openOk_isSome _ date line, ?_⟩
  · unfold HandleInv at hI
    rw [hI]
    rcases (runLog s ops).1.file with _ | f <;> simp
  · intro dir base fs0 date openOk p
    unfold newRotatingLogger
    rw [rotateIfNeeded_contents]

/-- Claim C7, evaluated on a fresh writer and one `Println`. -/
theorem logger_handle_invariants_witness :
    (runLog (⟨⟨"d", "b", "", none⟩, emptyFS⟩ : LoggerState × FileSys)
      [.println "2026-02-01" "x" true]).2.openFiles.length ≤ 1 :=
  (logger_handle_invariants ⟨⟨"d", "b", "", none⟩, emptyFS⟩
    [.println "2026-02-01" "x" true] rfl).2.1

/-! ### Tick-level failure handling (claim C8) -/

/-- Claim C8 counterexample: a window-variant tick whose cursor query fails
(`GetCursorPos` error) while the idle query succeeds logs the error but
still pushes that tick's sample — the window changes from `[]` to the pushed
sample — contradicting the claim that the tick's sample is not pushed and
the window's contents do not change when the cursor query fails. -/
theorem tick_cursor_fail_cex :
    (winTick smallCfg trivFmt (winStart (0, 0)) 0 "T" (Except.error "boom")
        (Except.ok 0)).1.samples = [Sample.mk 0 true]
    ∧ WinEvent.cursorErr "T" "boom" ∈
        (winTick smallCfg trivFmt (winStart (0, 0)) 0 "T" (Except.error "boom")
          (Except.ok 0)).2
    ∧ (winStart (0, 0)).samples = [] := by decide

/-- Claim C8 (amended): on a tick whose idle-duration query fails, the
window variant logs a `GetLastInputInfo` error line and leaves the window
untouched, and the monitor variant leaves the hourly bucket exactly as the
hour rollover left it (the failed tick contributes no sample) while writing
no idle-error line — the failure surfaces only as `idleNow=unknown` inside a
mouse-move line.  A cursor-query failure, by contrast, is logged but does
not skip the tick's idle sample: the window variant still pushes it.
Neither failure stops the loop. -/
theorem tick_query_failures (cfg : Config) (mcfg : MonConfig) (fmt : GoFmt)
    (wst : WinState) (mst : MonState) (now curHour : ℤ) (ts e : String)
    (mouseRes : Except String (ℤ × ℤ)) (idleNow : ℤ)
    (uploadRes : Except String Unit) :
    ((winTick cfg fmt wst now ts mouseRes (.error e)).1.samples = wst.samples
      ∧ WinEvent.inputInfoErr ts e ∈ (winTick cfg fmt wst now ts mouseRes (.error e)).2)
    ∧ ((winTick cfg fmt wst now ts (.error e) (.ok idleNow)).1.samples =
        pushSample cfg wst.samples now (decide (idleNow < cfg.activeIfIdleLessThan))
      ∧ WinEvent.cursorErr ts e ∈
          (winTick cfg fmt wst now ts (.error e) (.ok idleNow)).2)
    ∧ ((monTick mcfg fmt mst now curHour ts (.error e) mouseRes uploadRes).1.hour =
        (hourRollover fmt mst.hour curHour ts uploadRes).1
      ∧ (monTick mcfg fmt mst now curHour ts (.error e) mouseRes uploadRes).2 =
          (hourRollover fmt mst.hour curHour ts uploadRes).2 ++
            (match mouseRes with
             | .error me => [MonEvent.cursorErr ts me]
             | .ok p =>
               if p = mst.lastMouse then []
               else if decide (mcfg.printMouseMoveEvery = 0)
                   || sinceAtLeast now mst.lastMousePrint mcfg.printMouseMoveEvery then
                 [MonEvent.mouseMove ts p.1 p.2
                   (match mst.lastMouseMoveAt with
                    | none => "first_move"
                    | some tPrev => fmt.timeStr tPrev) "unknown"]
               else [])) := by
  refine ⟨⟨?_, ?_⟩, ⟨?_, ?_⟩, ?_, ?_⟩
  · unfold winTick
    rcases mouseRes with me | p <;> dsimp only
    all_goals first | rfl | (split_ifs <;> rfl)
  · unfold winTick
    rcases mouseRes with me | p <;> dsimp only
    all_goals simp
  · unfold winTick
    dsimp only
    first | rfl | (split_ifs <;> rfl)
  · unfold winTick
    dsimp only
    split_ifs <;> simp
  · unfold monTick
    rcases mouseRes with me | p <;> dsimp only
    all_goals first | rfl | (split_ifs <;> rfl)
  · unfold monTick
    rcases mouseRes with me | p <;> dsimp only
    all_goals first | rfl | (split_ifs <;> simp)

/-! ### Log line formats (claim C9) -/

theorem str_data_append (a b : String) : (a ++ b).data = a.data ++ b.data := rfl

set_option maxRecDepth 4000 in
/-- Claim C9 counterexample: the START line the monitor variant writes —
`[<ts>] START host=<host> user=<user> rqlite=<url>` at concrete arguments —
matches none of the five log-line formats the specification lists, so not
every line of both loop variants matches one of the five formats. -/
theorem mon_start_line_cex : ¬ MatchesSpecFormats monStartLineCex := by
  rintro (⟨ts, dir, base, h⟩ | ⟨ts, x, y, dx, dy, h⟩ | ⟨ts, mo, du, ra, n, h⟩ |
    ⟨ts, mo, du, ra, n, h⟩ | ⟨ts, h⟩)
  · refine absurd (?_ : "] START (logs in ".data <:+: monStartLineCex.data) (by decide)
    exact ⟨"[".data ++ ts.data, (dir ++ " as " ++ base ++ "-YYYY-MM-DD.log)").data,
      by rw [h]; simp [specStartLine, str_data_append]⟩
  · refine absurd (?_ : "] MOUSE MOVE: (".data <:+: monStartLineCex.data) (by decide)
    exact ⟨"[".data ++ ts.data, (x ++ "," ++ y ++ ") delta=(" ++ dx ++ "," ++ dy ++ ")").data,
      by rw [h]; simp [specMouseMoveLine, str_data_append]⟩
  · refine absurd (?_ : "] MODE CHANGE: ".data <:+: monStartLineCex.data) (by decide)
    exact ⟨"[".data ++ ts.data,
      (mo ++ "  idleNow=" ++ du ++ "  activeRatio=" ++ ra ++ "%  samples=" ++ n).data,
      by rw [h]; simp [specModeChangeLine, str_data_append]⟩
  · refine absurd (?_ : "] STATUS: mode=".data <:+: monStartLineCex.data) (by decide)
    exact ⟨"[".data ++ ts.data,
      (mo ++ "  idleNow=" ++ du ++ "  activeRatio=" ++ ra ++ "%  samples=" ++ n).data,
      by rw [h]; simp [specStatusLine, str_data_append]⟩
  · refine absurd (?_ : "] STOP".data <:+: monStartLineCex.data) (by decide)
    exact ⟨"[".data ++ ts.data, [],
      by rw [h]; simp [specStopLine, str_data_append]⟩

/-- Claim C9 (amended): every line the window variant's loop writes is
prefixed with `[<timestamp>] ` and matches one of the five listed formats or
one of the two in-loop error-line formats (`GetCursorPos error: <e>`,
`GetLastInputInfo error: <e>`); the monitor variant's lines use its own
distinct formats (its START line matches none of the five). -/
theorem win_lines_match_formats (ev : WinEvent) : MatchesWinFormats (renderWin ev) := by
  cases ev with
  | start ts dir base => exact Or.inl (Or.inl ⟨ts, dir, base, rfl⟩)
  | stop ts => exact Or.inl (Or.inr (Or.inr (Or.inr (Or.inr ⟨ts, rfl⟩))))
  | mouseMove ts x y dx dy =>
      exact Or.inl (Or.inr (Or.inl
        ⟨ts, toString x, toString y, toString dx, toString dy, rfl⟩))
  | cursorErr ts e => exact Or.inr (Or.inl ⟨ts, e, rfl⟩)
  | inputInfoErr ts e => exact Or.inr (Or.inr ⟨ts, e, rfl⟩)
  | modeChange ts m idleStr ratioStr n =>
      exact Or.inl (Or.inr (Or.inr (Or.inl
        ⟨ts, m.str, idleStr, ratioStr, toString n, rfl⟩)))
  | statusLine ts m idleStr ratioStr n =>
      exact Or.inl (Or.inr (Or.inr (Or.inr (Or.inl
        ⟨ts, m.str, idleStr, ratioStr, toString n, rfl⟩))))

end Asworm
